import Mathlib

/-!
Verification of the ararext STM32F407 serial bootloader.

Shallow embedding of the bootloader's protocol engine:
* `constants.rs` — command codes, response codes, memory map constants;
* `crc.rs` — the byte-fed CRC-32 (`calculate_crc`) and the frame predicate
  `verify_frame_crc`;
* `uart.rs` — `CommandPacket::parse` (with the panicking index/subtraction
  operations made explicit as `ParseResult.panicked` outcomes);
* `memory.rs` — `verify_address`;
* `handlers.rs` — the command handlers, modelled as functions from the payload
  (and a hardware environment) to the transmitted bytes plus a `BootAction`
  describing any state-changing effect (jump, erase, program, …);
* `flash.rs` — `execute_flash_erase`, returning the ordered list of sectors
  whose erasure is requested from the flash driver;
* `main.rs` — one iteration of `bootloader_loop` (`serve_iteration`).

Bytes and machine integers are modelled as `Nat` with explicit `% 2^32`
where 32-bit wrapping matters.  Rust `saturating_sub` coincides with
truncated `Nat` subtraction.  Unchecked Rust `usize` subtractions and
out-of-range slice bounds, which abort the program, are modelled as
explicit `panicked` results of the parser.
-/

set_option maxRecDepth 10000

namespace Bootloader

/-! ## constants.rs -/

def BL_VERSION : Nat := 0x10

def BL_GET_VER : Nat := 0x51
def BL_GET_HELP : Nat := 0x52
def BL_GET_CID : Nat := 0x53
def BL_GET_RDP_STATUS : Nat := 0x54
def BL_GO_TO_ADDR : Nat := 0x55
def BL_FLASH_ERASE : Nat := 0x56
def BL_MEM_WRITE : Nat := 0x57
def BL_EN_RW_PROTECT : Nat := 0x58
def BL_MEM_READ : Nat := 0x59
def BL_READ_SECTOR_P_STATUS : Nat := 0x5A
def BL_OTP_READ : Nat := 0x5B
def BL_DIS_R_W_PROTECT : Nat := 0x5C

def BL_ACK : Nat := 0xA5
def BL_NACK : Nat := 0x7F

def ADDR_VALID : Nat := 0x00
def ADDR_INVALID : Nat := 0x01

def SRAM1_BASE : Nat := 0x20000000
def SRAM1_SIZE : Nat := 112 * 1024
def SRAM1_END : Nat := SRAM1_BASE + SRAM1_SIZE

def SRAM2_BASE : Nat := 0x2001C000
def SRAM2_SIZE : Nat := 16 * 1024
def SRAM2_END : Nat := SRAM2_BASE + SRAM2_SIZE

def FLASH_BASE : Nat := 0x08000000
def FLASH_SIZE : Nat := 512 * 1024
def FLASH_END : Nat := FLASH_BASE + FLASH_SIZE

def BKPSRAM_BASE : Nat := 0x40024000
def BKPSRAM_SIZE : Nat := 4 * 1024
def BKPSRAM_END : Nat := BKPSRAM_BASE + BKPSRAM_SIZE

def FLASH_SECTOR2_BASE_ADDRESS : Nat := 0x08008000

def BL_RX_LEN : Nat := 200

def SUPPORTED_COMMANDS : List Nat :=
  [BL_GET_VER, BL_GET_HELP, BL_GET_CID, BL_GET_RDP_STATUS, BL_GO_TO_ADDR,
   BL_FLASH_ERASE, BL_MEM_WRITE, BL_EN_RW_PROTECT, BL_MEM_READ,
   BL_READ_SECTOR_P_STATUS, BL_OTP_READ, BL_DIS_R_W_PROTECT]

/-! ## Little-endian decoding helpers (`u32::from_le_bytes`, `u16::to_le_bytes`) -/

def U32_MOD : Nat := 4294967296

/-- `u32::from_le_bytes([b0, b1, b2, b3])`. -/
def u32le (b0 b1 b2 b3 : Nat) : Nat :=
  b0 + b1 * 0x100 + b2 * 0x10000 + b3 * 0x1000000

/-- `u16::to_le_bytes`. -/
def u16ToLeBytes (x : Nat) : List Nat := [x % 256, x / 256 % 256]

/-! ## crc.rs -/

def CRC_INIT : Nat := 0xFFFFFFFF
def CRC_POLY : Nat := 0x04C11DB7

/-- One iteration of the inner loop of `accumulate_word_crc`:
`crc = (crc << 1) ^ CRC_POLY` when bit 31 is set, else `crc = crc << 1`,
in wrapping 32-bit arithmetic. -/
def crcStep (crc : Nat) : Nat :=
  if crc &&& 0x80000000 ≠ 0 then ((crc <<< 1) % U32_MOD) ^^^ CRC_POLY
  else (crc <<< 1) % U32_MOD

/-- `n` iterations of `crcStep`. -/
def crcRounds : Nat → Nat → Nat
  | 0, crc => crc
  | n + 1, crc => crcRounds n (crcStep crc)

/-- `accumulate_word_crc`: XOR the (zero-extended) data word into the
accumulator, then run 32 shift-XOR rounds. -/
def accumulate_word_crc (crc data : Nat) : Nat :=
  crcRounds 32 (crc ^^^ data)

/-- `calculate_crc`: fold `accumulate_word_crc` over the bytes, seeded with
`CRC_INIT`. -/
def calculate_crc (data : List Nat) : Nat :=
  data.foldl accumulate_word_crc CRC_INIT

/-- `verify_frame_crc`: frames shorter than 6 bytes are rejected; otherwise
the CRC of `frame[..len-4]` is compared to the little-endian `u32` decoded
from `frame[len-4..]`. -/
def verify_frame_crc (frame : List Nat) : Bool :=
  if frame.length < 6 then false
  else
    let data_len := frame.length - 4
    let expected := u32le (frame.getD data_len 0) (frame.getD (data_len + 1) 0)
      (frame.getD (data_len + 2) 0) (frame.getD (data_len + 3) 0)
    calculate_crc (frame.take data_len) == expected

/-! ## memory.rs -/

/-- `verify_address`: `ADDR_VALID` iff the address lies in SRAM1, SRAM2,
flash, or backup SRAM, each with inclusive upper bound (`address <= END`). -/
def verify_address (address : Nat) : Nat :=
  if (SRAM1_BASE ≤ address ∧ address ≤ SRAM1_END) ∨
     (SRAM2_BASE ≤ address ∧ address ≤ SRAM2_END) ∨
     (FLASH_BASE ≤ address ∧ address ≤ FLASH_END) ∨
     (BKPSRAM_BASE ≤ address ∧ address ≤ BKPSRAM_END) then
    ADDR_VALID
  else
    ADDR_INVALID

/-- Number of the four regions of `verify_address` that contain `a`. -/
def regionCount (a : Nat) : Nat :=
  (if SRAM1_BASE ≤ a ∧ a ≤ SRAM1_END then 1 else 0) +
  (if SRAM2_BASE ≤ a ∧ a ≤ SRAM2_END then 1 else 0) +
  (if FLASH_BASE ≤ a ∧ a ≤ FLASH_END then 1 else 0) +
  (if BKPSRAM_BASE ≤ a ∧ a ≤ BKPSRAM_END then 1 else 0)

/-! ## uart.rs -/

/-- `UartComm::send_ack`: three bytes `ACK, command, follow_len`. -/
def send_ack (command_code follow_len : Nat) : List Nat :=
  [BL_ACK, command_code, follow_len]

/-- `UartComm::send_nack`: the single byte `NACK`. -/
def send_nack : List Nat := [BL_NACK]

/-- The parsed packet of `CommandPacket::parse`.  `payload` is the full
197-byte (`BL_RX_LEN - 3`) payload array. -/
structure CommandPacket where
  length : Nat
  command : Nat
  payload : List Nat
  payload_len : Nat
  crc : Nat
  deriving DecidableEq

/-- Which aborting operation of `CommandPacket::parse` fired. -/
inductive PanicKind where
  /-- `let crc_offset = 2 + (length as usize) - 4` underflows (`length <= 1`). -/
  | crcOffsetUnderflow
  /-- the slice bound `payload_len - 4` underflows (`2 <= length <= 4`). -/
  | payloadBoundUnderflow
  /-- `payload[..payload_len - 4]` exceeds the 197-byte array (`length >= 203`). -/
  | payloadOverflow
  deriving DecidableEq

/-- Outcome of `CommandPacket::parse`: an abort, `None`, or `Some packet`. -/
inductive ParseResult where
  | panicked (k : PanicKind)
  | nonePkt
  | somePkt (p : CommandPacket)
  deriving DecidableEq

def ParseResult.isPanicked : ParseResult → Bool
  | .panicked _ => true
  | _ => false

/-- `CommandPacket::parse`.  Mirrors the source line by line; the `usize`
subtractions that can underflow and the slice bound that can exceed the
197-byte payload array are surfaced as `panicked` results (in Rust they
abort, by an arithmetic-overflow panic in debug builds or by the ensuing
out-of-bounds index in release builds). -/
def CommandPacket.parse (buffer : List Nat) : ParseResult :=
  if buffer.length < 4 then .nonePkt
  else
    let length := buffer.getD 0 0
    let command := buffer.getD 1 0
    if buffer.length < 2 + length then .nonePkt
    else if 2 + length < 4 then .panicked .crcOffsetUnderflow
    else
      let crc_offset := 2 + length - 4
      let crc := u32le (buffer.getD crc_offset 0) (buffer.getD (crc_offset + 1) 0)
        (buffer.getD (crc_offset + 2) 0) (buffer.getD (crc_offset + 3) 0)
      let payload_len := length - 1
      if 0 < payload_len ∧ payload_len < 4 then .panicked .payloadBoundUnderflow
      else if 0 < payload_len ∧ 197 < payload_len - 4 then .panicked .payloadOverflow
      else
        let payload := (buffer.drop 2).take (payload_len - 4) ++
          List.replicate (197 - (payload_len - 4)) 0
        .somePkt ⟨length, command, payload, payload_len - 4, crc⟩

/-! ## handlers.rs -/

/-- The state-changing effect a handler performs besides transmitting bytes. -/
inductive BootAction where
  | none
  | jump (address : Nat)
  | flashErase (sectors : List Nat)
  | flashProgram (address : Nat) (data : List Nat)
  | optionWrite (mode : Nat)
  deriving DecidableEq

/-- Result of a handler: the bytes written to the UART and the effect. -/
structure HandlerOut where
  out : List Nat
  action : BootAction
  deriving DecidableEq

/-- Hardware state the read-only handlers consult. -/
structure Env where
  /-- byte-addressed memory, as read by `MEM_READ`'s volatile `u8` loads -/
  mem : Nat → Nat
  /-- the `DBGMCU->IDCODE` register value -/
  idcode : Nat
  /-- the option-bytes word at `0x1FFFC000` -/
  ob0 : Nat
  /-- the option-bytes halfword at `0x1FFFC008` (16-bit value) -/
  ob8 : Nat

/-- `memory::get_mcu_chip_id`: bits `[11:0]` of `DBGMCU->IDCODE`. -/
def get_mcu_chip_id (env : Env) : Nat := env.idcode &&& 0x0FFF

/-- `memory::get_flash_rdp_level`: bits `[15:8]` of the option-bytes word. -/
def get_flash_rdp_level (env : Env) : Nat := (env.ob0 >>> 8) &&& 0xFF

/-- `flash::read_ob_rw_protection_status`: the halfword at `0x1FFFC008`. -/
def read_ob_rw_protection_status (env : Env) : Nat := env.ob8 % 65536

/-- `u32::from_le_bytes([packet[0], packet[1], packet[2], packet[3]])`, the
address decode shared by the `GO_TO_ADDR`, `MEM_WRITE` and `MEM_READ`
handlers. -/
def decode_le_addr (packet : List Nat) : Nat :=
  u32le (packet.getD 0 0) (packet.getD 1 0) (packet.getD 2 0) (packet.getD 3 0)

/-- `handle_getver_cmd`. -/
def handle_getver_cmd (_packet : List Nat) : HandlerOut :=
  ⟨send_ack BL_GET_VER 1 ++ [BL_VERSION], .none⟩

/-- `handle_gethelp_cmd`. -/
def handle_gethelp_cmd : HandlerOut :=
  ⟨send_ack BL_GET_HELP SUPPORTED_COMMANDS.length ++ SUPPORTED_COMMANDS, .none⟩

/-- `handle_getcid_cmd`. -/
def handle_getcid_cmd (env : Env) : HandlerOut :=
  ⟨send_ack BL_GET_CID 2 ++ u16ToLeBytes (get_mcu_chip_id env), .none⟩

/-- `handle_getrdp_cmd`. -/
def handle_getrdp_cmd (env : Env) : HandlerOut :=
  ⟨send_ack BL_GET_RDP_STATUS 1 ++ [get_flash_rdp_level env], .none⟩

/-- `handle_go_cmd`: decode a little-endian address from the payload,
validate it, and either ACK-and-jump or NACK. -/
def handle_go_cmd (packet : List Nat) : HandlerOut :=
  if packet.length < 4 then ⟨send_nack, .none⟩
  else
    let address := decode_le_addr packet
    if verify_address address = ADDR_VALID then
      ⟨send_ack BL_GO_TO_ADDR 0, .jump address⟩
    else
      ⟨send_nack, .none⟩

/-- `handlers::jump_to_address`, given the 32-bit word memory: the pair
`(new MSP, branch target)` = `(mem[address], mem[address + 4])`. -/
def jump_to_address (memWord : Nat → Nat) (address : Nat) : Nat × Nat :=
  (memWord address, memWord (address + 4))

/-- `handle_flash_erase_cmd`: both branches send `NACK`; the flash
controller is never invoked. -/
def handle_flash_erase_cmd (packet : List Nat) : HandlerOut :=
  if packet.length < 2 then ⟨send_nack, .none⟩
  else ⟨send_nack, .none⟩

/-- `handle_mem_write_cmd`: every branch sends `NACK`; nothing is
programmed. -/
def handle_mem_write_cmd (packet : List Nat) : HandlerOut :=
  if packet.length < 6 then ⟨send_nack, .none⟩
  else
    let address := decode_le_addr packet
    let write_len := packet.getD 4 0
    if packet.length < 5 + write_len then ⟨send_nack, .none⟩
    else if verify_address address = ADDR_VALID then ⟨send_nack, .none⟩
    else ⟨send_nack, .none⟩

/-- `handle_mem_read_cmd`: requires at least 6 payload bytes, validates the
address, then streams `read_len` bytes from successive addresses. -/
def handle_mem_read_cmd (env : Env) (packet : List Nat) : HandlerOut :=
  if packet.length < 6 then ⟨send_nack, .none⟩
  else
    let address := decode_le_addr packet
    let read_len := packet.getD 4 0
    if verify_address address = ADDR_VALID then
      ⟨send_ack BL_MEM_READ read_len ++
        (List.range read_len).map (fun i => env.mem ((address + i) % U32_MOD)), .none⟩
    else
      ⟨send_nack, .none⟩

/-- `handle_en_rw_protect_cmd`: both branches send `NACK`. -/
def handle_en_rw_protect_cmd (packet : List Nat) : HandlerOut :=
  if packet.length < 2 then ⟨send_nack, .none⟩
  else ⟨send_nack, .none⟩

/-- `handle_dis_rw_protect_cmd`: always `NACK`. -/
def handle_dis_rw_protect_cmd (_packet : List Nat) : HandlerOut :=
  ⟨send_nack, .none⟩

/-- `handle_read_sector_protection_cmd`. -/
def handle_read_sector_protection_cmd (env : Env) : HandlerOut :=
  ⟨send_ack BL_READ_SECTOR_P_STATUS 2 ++
    u16ToLeBytes (read_ob_rw_protection_status env), .none⟩

/-- `handle_read_otp_cmd`: stub, always `NACK`. -/
def handle_read_otp_cmd : HandlerOut :=
  ⟨send_nack, .none⟩

/-! ## flash.rs -/

/-- `flash::execute_flash_erase`, abstracting the flash driver as the
ordered list of sector numbers whose erase is requested.  The guard
structure is exactly the source's: the `number_of_sectors > 8` check comes
first, then mass erase (`0xFF`), then `sector_number <= 7` with the clamp
to `8 - sector_number`. -/
def execute_flash_erase (sector_number number_of_sectors : Nat) :
    Except String (List Nat) :=
  if 8 < number_of_sectors then .error "Invalid number of sectors"
  else if sector_number = 0xFF then .ok (List.range 8)
  else if sector_number ≤ 7 then
    let remaining_sectors := 8 - sector_number
    let sectors_to_erase :=
      if remaining_sectors < number_of_sectors then remaining_sectors
      else number_of_sectors
    .ok ((List.range sectors_to_erase).map (fun i => sector_number + i))
  else .error "Invalid sector number"

/-! ## main.rs -/

/-- The dispatch `match packet.command` of `bootloader_loop`; the handlers
receive `&packet.payload[..packet.payload_len]`. -/
def dispatch (env : Env) (pkt : CommandPacket) : HandlerOut :=
  let p := pkt.payload.take pkt.payload_len
  if pkt.command = BL_GET_VER then handle_getver_cmd p
  else if pkt.command = BL_GET_HELP then handle_gethelp_cmd
  else if pkt.command = BL_GET_CID then handle_getcid_cmd env
  else if pkt.command = BL_GET_RDP_STATUS then handle_getrdp_cmd env
  else if pkt.command = BL_GO_TO_ADDR then handle_go_cmd p
  else if pkt.command = BL_FLASH_ERASE then handle_flash_erase_cmd p
  else if pkt.command = BL_MEM_WRITE then handle_mem_write_cmd p
  else if pkt.command = BL_EN_RW_PROTECT then handle_en_rw_protect_cmd p
  else if pkt.command = BL_MEM_READ then handle_mem_read_cmd env p
  else if pkt.command = BL_READ_SECTOR_P_STATUS then handle_read_sector_protection_cmd env
  else if pkt.command = BL_OTP_READ then handle_read_otp_cmd
  else if pkt.command = BL_DIS_R_W_PROTECT then handle_dis_rw_protect_cmd p
  else ⟨send_nack, .none⟩

/-- Result of one iteration of the serve loop. -/
inductive ServeResult where
  | normal (out : List Nat) (action : BootAction)
  | panicked (k : PanicKind)
  deriving DecidableEq

/-- One iteration of `bootloader_loop`: read the length byte, check the
frame bounds, assemble the frame, verify its CRC, parse, dispatch.  The
input stream is the list of available UART bytes; running out of bytes
models the read-error branches, which send `NACK`. -/
def serve_iteration (env : Env) (input : List Nat) : ServeResult :=
  match input with
  | [] => .normal send_nack .none
  | length :: rest =>
    let frame_len := length + 1
    if BL_RX_LEN < frame_len ∨ length < 5 then .normal send_nack .none
    else if rest.length < length then .normal send_nack .none
    else
      let frame := length :: rest.take length
      if verify_frame_crc frame then
        match CommandPacket.parse frame with
        | .somePkt pkt =>
          let h := dispatch env pkt
          .normal h.out h.action
        | .nonePkt => .normal send_nack .none
        | .panicked k => .panicked k
      else .normal send_nack .none

/-- The well-formed `GET_VER` frame of spec scenario S1: length byte `0x05`,
command `0x51`, followed by the little-endian CRC-32 of `[0x05, 0x51]`
(which is `0x7CABE9E7`). -/
def getverFrame : List Nat := [0x05, 0x51, 0xE7, 0xE9, 0xAB, 0x7C]

/-! ## Theorems -/

/-- A list of length at least 4 ends in the four elements read by
`verify_frame_crc`'s tail indices. -/
theorem drop_last_four (l : List Nat) (h : 4 ≤ l.length) :
    l.drop (l.length - 4) =
      [l.getD (l.length - 4) 0, l.getD (l.length - 4 + 1) 0,
       l.getD (l.length - 4 + 2) 0, l.getD (l.length - 4 + 3) 0] := by
  apply List.ext_getElem?
  intro n
  rw [List.getElem?_drop]
  match n with
  | 0 =>
    have hlt : l.length - 4 < l.length := by omega
    simp [List.getElem?_eq_getElem hlt, List.getD_eq_getElem?_getD]
  | 1 =>
    have hlt : l.length - 4 + 1 < l.length := by omega
    simp [List.getElem?_eq_getElem hlt, List.getD_eq_getElem?_getD]
  | 2 =>
    have hlt : l.length - 4 + 2 < l.length := by omega
    simp [List.getElem?_eq_getElem hlt, List.getD_eq_getElem?_getD]
  | 3 =>
    have hlt : l.length - 4 + 3 < l.length := by omega
    simp [List.getElem?_eq_getElem hlt, List.getD_eq_getElem?_getD]
  | n + 4 =>
    rw [List.getElem?_eq_none (by omega)]
    simp

/-- Claim C3: `verify_frame_crc f` is `true` exactly when `f` has at least 6
bytes and the CRC-32 of `f[0 .. len f - 4]` equals the little-endian `u32`
decoded from the last four bytes of `f`; every shorter `f` yields `false`. -/
theorem verify_frame_crc_spec :
    (∀ f : List Nat, verify_frame_crc f = true ↔
      (6 ≤ f.length ∧ ∃ b0 b1 b2 b3 : Nat,
        f.drop (f.length - 4) = [b0, b1, b2, b3] ∧
        calculate_crc (f.take (f.length - 4)) = u32le b0 b1 b2 b3)) ∧
    (∀ f : List Nat, f.length < 6 → verify_frame_crc f = false) := by
  have hfalse : ∀ f : List Nat, f.length < 6 → verify_frame_crc f = false := by
    intro f h
    simp [verify_frame_crc, h]
  refine ⟨fun f => ?_, hfalse⟩
  by_cases h6 : f.length < 6
  · rw [hfalse f h6]
    constructor
    · intro hx
      exact (Bool.false_ne_true hx).elim
    · rintro ⟨hh, -⟩
      omega
  · simp only [verify_frame_crc, if_neg h6, beq_iff_eq]
    constructor
    · intro hc
      exact ⟨by omega, _, _, _, _, drop_last_four f (by omega), hc⟩
    · rintro ⟨-, b0, b1, b2, b3, hdrop, hc⟩
      rw [drop_last_four f (by omega)] at hdrop
      simp only [List.cons.injEq, and_true] at hdrop
      obtain ⟨e0, e1, e2, e3⟩ := hdrop
      rw [e0, e1, e2, e3]
      exact hc

/-- Witness for claim C3: a 3-byte frame is rejected. -/
theorem verify_frame_crc_spec_witness :
    verify_frame_crc [0x05, 0x51, 0x00] = false :=
  verify_frame_crc_spec.2 [0x05, 0x51, 0x00] (by decide)

/-- Claim C4 counterexample: `calculate_crc` of the single byte `0x00` is
`0xC704DD7B`, not the claimed `0x4F5344CD`. -/
theorem calculate_crc_zero_byte_counterexample :
    calculate_crc [0x00] = 0xC704DD7B ∧ calculate_crc [0x00] ≠ 0x4F5344CD :=
  ⟨rfl, by decide⟩

/-- Claim C4 (amended): `calculate_crc` of the empty sequence is the seed
`0xFFFFFFFF`, of the single byte `0x00` is `0xC704DD7B`, and feeding the
bytes one at a time through `accumulate_word_crc` equals the one-shot
computation over the whole sequence. -/
theorem calculate_crc_ground_truth :
    calculate_crc [] = 0xFFFFFFFF ∧
    calculate_crc [0x00] = 0xC704DD7B ∧
    ∀ xs ys : List Nat, calculate_crc (xs ++ ys) =
      List.foldl accumulate_word_crc (calculate_crc xs) ys :=
  ⟨rfl, rfl, fun xs ys => by simp [calculate_crc, List.foldl_append]⟩

/-- Claim C5 counterexample: the address `0x2001C000` (SRAM1's inclusive end,
which is also SRAM2's base) lies in two of the four regions, so it is not
the case that at most one region contains every address. -/
theorem region_overlap_counterexample :
    (SRAM1_BASE ≤ 0x2001C000 ∧ (0x2001C000 : Nat) ≤ SRAM1_END) ∧
    (SRAM2_BASE ≤ 0x2001C000 ∧ (0x2001C000 : Nat) ≤ SRAM2_END) ∧
    regionCount 0x2001C000 = 2 := by
  refine ⟨by decide, by decide, by decide⟩

/-- Claim C5 (amended): except at `0x2001C000`, at most one of the four
regions contains any address, and `verify_address` returns `ADDR_VALID`
exactly when some region contains the address, `ADDR_INVALID` exactly when
none does. -/
theorem verify_address_partition (a : Nat) :
    (a ≠ 0x2001C000 → regionCount a ≤ 1) ∧
    (verify_address a = ADDR_VALID ↔ 1 ≤ regionCount a) ∧
    (verify_address a = ADDR_INVALID ↔ regionCount a = 0) := by
  simp only [regionCount, verify_address, ADDR_VALID, ADDR_INVALID,
    SRAM1_BASE, SRAM1_SIZE, SRAM1_END, SRAM2_BASE, SRAM2_SIZE, SRAM2_END,
    FLASH_BASE, FLASH_SIZE, FLASH_END, BKPSRAM_BASE, BKPSRAM_SIZE, BKPSRAM_END]
  refine ⟨fun h => ?_, ?_, ?_⟩ <;> split_ifs <;> first | omega | decide

/-- Witness for claim C5: the flash base address is in exactly one region and
is accepted by `verify_address`. -/
theorem verify_address_partition_witness :
    regionCount 0x08000000 ≤ 1 ∧ verify_address 0x08000000 = ADDR_VALID :=
  ⟨(verify_address_partition 0x08000000).1 (by decide),
   (verify_address_partition 0x08000000).2.1.mpr (by decide)⟩

/-- Claim C6: `handle_go_cmd` on a packet carrying a little-endian address
sends the single `NACK` byte and performs no jump (and hence no MSP write)
when `verify_address` rejects the address — in particular `0x00000000` and
`0xFFFFFFFF` are rejected — and sends `ACK, 0x55, 0x00` followed by a
transfer of control (MSP from the word at the address, branch to the word
at the address + 4) when the address is valid. -/
theorem handle_go_cmd_guard (p : List Nat) (h : 4 ≤ p.length) :
    (verify_address (decode_le_addr p) = ADDR_INVALID →
      handle_go_cmd p = ⟨[BL_NACK], BootAction.none⟩) ∧
    (verify_address (decode_le_addr p) = ADDR_VALID →
      handle_go_cmd p =
        ⟨[BL_ACK, BL_GO_TO_ADDR, 0x00], BootAction.jump (decode_le_addr p)⟩ ∧
      ∀ memWord : Nat → Nat, jump_to_address memWord (decode_le_addr p) =
        (memWord (decode_le_addr p), memWord (decode_le_addr p + 4))) ∧
    verify_address 0x00000000 = ADDR_INVALID ∧
    verify_address 0xFFFFFFFF = ADDR_INVALID := by
  refine ⟨fun hinv => ?_, fun hval => ⟨?_, fun m => rfl⟩, by decide, by decide⟩
  · simp only [handle_go_cmd, if_neg (show ¬ p.length < 4 by omega)]
    rw [if_neg (by rw [hinv]; simp [ADDR_VALID, ADDR_INVALID])]
    rfl
  · simp only [handle_go_cmd, if_neg (show ¬ p.length < 4 by omega)]
    rw [if_pos hval]
    rfl

/-- Witness for claim C6: address `0x00000000` (spec scenario S4) is NACKed,
address `0x20001000` in SRAM1 (spec scenario S3) is ACKed and jumped to. -/
theorem handle_go_cmd_guard_witness :
    handle_go_cmd [0x00, 0x00, 0x00, 0x00] = ⟨[BL_NACK], BootAction.none⟩ ∧
    handle_go_cmd [0x00, 0x10, 0x00, 0x20] =
      ⟨[BL_ACK, BL_GO_TO_ADDR, 0x00], BootAction.jump 0x20001000⟩ :=
  ⟨(handle_go_cmd_guard [0x00, 0x00, 0x00, 0x00] (by decide)).1 (by decide),
   ((handle_go_cmd_guard [0x00, 0x10, 0x00, 0x20] (by decide)).2.1 (by decide)).1.trans rfl⟩

/-- Claim C7 counterexample: with `sector_number = 0xFF` and
`number_of_sectors = 9` the erase is rejected outright — the mass erase is
not performed for every `number_of_sectors`. -/
theorem mass_erase_count_nine_counterexample :
    execute_flash_erase 0xFF 9 = Except.error "Invalid number of sectors" := rfl

/-- Claim C7 (amended): when `number_of_sectors ≤ 8`, `sector_number = 0xFF`
mass-erases sectors 0–7 in order and `sector_number ≤ 7` erases exactly
`min(number_of_sectors, 8 - sector_number)` consecutive sectors starting at
`sector_number`; `number_of_sectors > 8`, or `sector_number` strictly
between 8 and `0xFF`, yields an error and no sector is erased. -/
theorem execute_flash_erase_bounds (sector_number number_of_sectors : Nat) :
    (number_of_sectors ≤ 8 → sector_number = 0xFF →
      execute_flash_erase sector_number number_of_sectors =
        Except.ok [0, 1, 2, 3, 4, 5, 6, 7]) ∧
    (number_of_sectors ≤ 8 → sector_number ≤ 7 →
      execute_flash_erase sector_number number_of_sectors =
        Except.ok ((List.range (min number_of_sectors (8 - sector_number))).map
          (fun i => sector_number + i))) ∧
    ((8 < number_of_sectors ∨ (8 < sector_number ∧ sector_number < 0xFF)) →
      ∃ e, execute_flash_erase sector_number number_of_sectors =
        Except.error e) := by
  refine ⟨fun h8 hff => ?_, fun h8 h7 => ?_, fun herr => ?_⟩
  · simp only [execute_flash_erase]
    rw [if_neg (by omega), if_pos hff]
    rfl
  · simp only [execute_flash_erase]
    rw [if_neg (by omega), if_neg (by omega), if_pos h7]
    have hmin : (if 8 - sector_number < number_of_sectors then 8 - sector_number
        else number_of_sectors) = min number_of_sectors (8 - sector_number) := by
      rw [Nat.min_def]
      split_ifs <;> omega
    rw [hmin]
  · by_cases hn : 8 < number_of_sectors
    · simp only [execute_flash_erase]
      rw [if_pos hn]
      exact ⟨_, rfl⟩
    · obtain ⟨hs1, hs2⟩ : 8 < sector_number ∧ sector_number < 0xFF := by
        rcases herr with h | h
        · omega
        · exact h
      simp only [execute_flash_erase]
      rw [if_neg hn, if_neg (by omega), if_neg (by omega)]
      exact ⟨_, rfl⟩

/-- Witness for claim C7: erasing 5 sectors starting at sector 6 is clamped
to exactly sectors 6 and 7 (spec property 7). -/
theorem execute_flash_erase_bounds_witness :
    execute_flash_erase 6 5 = Except.ok [6, 7] :=
  ((execute_flash_erase_bounds 6 5).2.1 (by decide) (by decide)).trans rfl

/-- Claim C1 (code evaluation at the failing input): the well-formed
`GET_VER` frame `05 51 E7 E9 AB 7C` passes the serve loop's length bounds
and the CRC check, but `CommandPacket.parse` returns `None` — it demands
`buffer.len ≥ length_field + 2` while the loop hands it exactly
`length_field + 1` bytes — so the iteration replies with the single `NACK`
byte `0x7F` instead of `A5 51 01 10`. -/
theorem getver_frame_is_nacked :
    verify_frame_crc getverFrame = true ∧
    CommandPacket.parse getverFrame = ParseResult.nonePkt ∧
    ∀ env : Env, serve_iteration env getverFrame =
      ServeResult.normal [BL_NACK] BootAction.none :=
  ⟨rfl, rfl, fun _ => rfl⟩

/-- Claim C2 (code evaluation at the failing input): the minimal well-formed
6-byte frame with length field 5 — total length ≥ 6, `length_field + 1`
equal to the total length, `length_field ≥ 5`, empty payload — which the
claim says parses into a packet, is rejected by `CommandPacket.parse`
because the parser demands `buffer.len ≥ length_field + 2`. -/
theorem parse_rejects_minimal_wellformed_frame :
    CommandPacket.parse [0x05, 0x51, 0x00, 0x00, 0x00, 0x00] =
      ParseResult.nonePkt := rfl

/-- Claim C8 (code evaluation at the failing input): the
protocol-conformant 5-byte `MEM_READ` payload — little-endian flash base
address `0x08000000`, which `verify_address` accepts, followed by length 4
— is answered with the single `NACK` byte, because `handle_mem_read_cmd`
demands at least 6 payload bytes. -/
theorem mem_read_five_byte_payload_nacked :
    verify_address 0x08000000 = ADDR_VALID ∧
    ∀ env : Env, handle_mem_read_cmd env [0x00, 0x00, 0x00, 0x08, 0x04] =
      ⟨[BL_NACK], BootAction.none⟩ :=
  ⟨by decide, fun _ => rfl⟩

/-- Claim C9: for every payload, the `FLASH_ERASE`, `MEM_WRITE`,
`EN_RW_PROTECT`, `DIS_R_W_PROTECT` and `OTP_READ` handlers transmit exactly
the single `NACK` byte and perform no action — no flash erase, no flash
program, no option-byte write. -/
theorem stub_handlers_always_nack (p : List Nat) :
    handle_flash_erase_cmd p = ⟨[BL_NACK], BootAction.none⟩ ∧
    handle_mem_write_cmd p = ⟨[BL_NACK], BootAction.none⟩ ∧
    handle_en_rw_protect_cmd p = ⟨[BL_NACK], BootAction.none⟩ ∧
    handle_dis_rw_protect_cmd p = ⟨[BL_NACK], BootAction.none⟩ ∧
    handle_read_otp_cmd = ⟨[BL_NACK], BootAction.none⟩ := by
  refine ⟨?_, ?_, ?_, rfl, rfl⟩ <;>
    simp only [handle_flash_erase_cmd, handle_mem_write_cmd,
      handle_en_rw_protect_cmd, send_nack] <;>
    split_ifs <;> rfl

/-- Claim C10 counterexample: a buffer with length field exactly 202 (and
enough bytes behind it) does not abort — the 197-byte payload copy fits
exactly — contradicting the claim that every `buffer[0] ≥ 202` panics. -/
theorem parse_length_202_counterexample :
    (CommandPacket.parse (202 :: 0x51 :: List.replicate 202 0)).isPanicked =
      false := rfl

/-- Claim C10 (amended): for every buffer with at least 4 bytes and at least
`2 + buffer[0]` bytes in total, `CommandPacket.parse` aborts — via the
`usize` underflow in the CRC offset when `buffer[0] ≤ 1`, via the underflow
in the payload slice bound when `2 ≤ buffer[0] ≤ 4`, and via the oversized
copy into the 197-byte payload array when `buffer[0] ≥ 203`. -/
theorem parse_panic_characterization (b : List Nat)
    (h4 : 4 ≤ b.length) (hlen : 2 + b.getD 0 0 ≤ b.length) :
    (b.getD 0 0 ≤ 1 →
      CommandPacket.parse b = ParseResult.panicked PanicKind.crcOffsetUnderflow) ∧
    (2 ≤ b.getD 0 0 → b.getD 0 0 ≤ 4 →
      CommandPacket.parse b = ParseResult.panicked PanicKind.payloadBoundUnderflow) ∧
    (203 ≤ b.getD 0 0 →
      CommandPacket.parse b = ParseResult.panicked PanicKind.payloadOverflow) := by
  refine ⟨fun h1 => ?_, fun h2 h3 => ?_, fun h5 => ?_⟩ <;>
    simp only [CommandPacket.parse] <;>
    split_ifs <;> first | rfl | omega

/-- Witness for claim C10: buffers with length fields 0, 3 and 203 abort at
the respective operations. -/
theorem parse_panic_characterization_witness :
    CommandPacket.parse [0, 0, 0, 0] =
      ParseResult.panicked PanicKind.crcOffsetUnderflow ∧
    CommandPacket.parse [3, 0, 0, 0, 0] =
      ParseResult.panicked PanicKind.payloadBoundUnderflow ∧
    CommandPacket.parse (203 :: 0x51 :: List.replicate 203 0) =
      ParseResult.panicked PanicKind.payloadOverflow :=
  ⟨(parse_panic_characterization [0, 0, 0, 0] (by decide) (by decide)).1
      (by decide),
   (parse_panic_characterization [3, 0, 0, 0, 0] (by decide) (by decide)).2.1
      (by decide) (by decide),
   (parse_panic_characterization (203 :: 0x51 :: List.replicate 203 0)
      (by simp) (by simp)).2.2 (by simp)⟩

end Bootloader
